import Mathlib

/-!
Shallow embedding of the geometry-serving pipeline of the MapData backend:
`utils/geo_utils.py`, `services/database_service.py`, `routes/geographic.py`
and `schemas/geographic.py`. Machine floats that are only compared and looked
up (tolerances, coordinates) are modelled as rationals; Python dicts as
insertion-ordered association lists with assignment semantics; the fallible
shapely conversion `to_shape`/`mapping` as an `Except`-valued primitive.
-/

/-- A GeoJSON geometry object (Point / Polygon / MultiPolygon). -/
inductive Geom where
  | point (coords : ℚ × ℚ)
  | polygon (rings : List (List (ℚ × ℚ)))
  | multiPolygon (polys : List (List (List (ℚ × ℚ))))
deriving DecidableEq, Repr

/-- A stored PostGIS geometry column value: either something
`to_shape`/`mapping` can convert, or a malformed value on which the
conversion raises (with the exception message). -/
inductive StoredGeom where
  | wellFormed (g : Geom)
  | malformed (reason : String)
deriving DecidableEq, Repr

/-- The shapely conversion `mapping(to_shape(g))`: succeeds on well-formed
geometry, raises (modelled as `Except.error`) otherwise. -/
def to_shape_geojson : StoredGeom → Except String Geom
  | StoredGeom.wellFormed g => Except.ok g
  | StoredGeom.malformed r => Except.error r

/-- `geo_utils.convert_geometry_to_geojson`: `None` yields the placeholder
point, a raising conversion is caught and also yields the placeholder. -/
def convert_geometry_to_geojson : Option StoredGeom → Geom
  | none => Geom.point (0, 0)
  | some g =>
    match to_shape_geojson g with
    | Except.ok shape => shape
    | Except.error _ => Geom.point (0, 0)

/-- `geo_utils.create_placeholder_geometry`. -/
def create_placeholder_geometry : Geom := Geom.point (0, 0)

/-- A JSON-ish property value as stored in the Python property dicts. -/
inductive PValue where
  | null
  | str (s : String)
  | int (n : Int)
  | num (q : ℚ)
deriving DecidableEq, Repr

/-- Injection of an optional Python string attribute into a dict value
(`None` becomes JSON null). -/
def opt_val : Option String → PValue
  | none => PValue.null
  | some s => PValue.str s

/-- A Python dict of properties: insertion-ordered association list with
unique keys maintained by `dictSet`. -/
abbrev PropMap := List (String × PValue)

/-- Python dict assignment `m[k] = v`: update in place if the key exists
(position preserved), else append. -/
def dictSet : PropMap → String → PValue → PropMap
  | [], k, v => [(k, v)]
  | (k0, v0) :: rest, k, v =>
    if k0 = k then (k0, v) :: rest else (k0, v0) :: dictSet rest k v

/-- Python dict lookup `m.get(k)`. -/
def dictGet : PropMap → String → Option PValue
  | [], _ => none
  | (k0, v0) :: rest, k => if k0 = k then some v0 else dictGet rest k

/-- Python `k in m`. -/
def dictHasKey (m : PropMap) (k : String) : Bool := (dictGet m k).isSome

/-- The loop `for key, value in extras.items(): properties[key] = value`. -/
def apply_extras (p : PropMap) (extras : List (String × PValue)) : PropMap :=
  extras.foldl (fun acc kv => dictSet acc kv.1 kv.2) p

/-- Last value bound to `k` in an items list (what survives repeated dict
assignment). -/
def lookupLast : List (String × PValue) → String → Option PValue
  | [], _ => none
  | (k0, v0) :: rest, k =>
    match lookupLast rest k with
    | some v => some v
    | none => if k0 = k then some v0 else none

/-- `geo_utils.get_bounding_box_filter` builds the ST_MakeEnvelope
predicate; modelled structurally rather than as an SQL string. -/
structure SpatialPredicate where
  min_lon : ℚ
  min_lat : ℚ
  max_lon : ℚ
  max_lat : ℚ
  srid : Nat
deriving DecidableEq, Repr

def get_bounding_box_filter (min_lon min_lat max_lon max_lat : ℚ) :
    SpatialPredicate :=
  ⟨min_lon, min_lat, max_lon, max_lat, 4326⟩

/-- `geo_utils.create_bounding_box_filter`: a predicate only when all four
coordinates are non-None. -/
def create_bounding_box_filter (min_lon min_lat max_lon max_lat : Option ℚ) :
    Option SpatialPredicate :=
  match min_lon, min_lat, max_lon, max_lat with
  | some a, some b, some c, some d => some (get_bounding_box_filter a b c d)
  | _, _, _, _ => none

/-- The float literal `0.05`, exactly 1/20. The decimal tolerance constants
are built by the `Rat` constructor because the `Rat` arithmetic that a
division or scientific literal would go through is `@[irreducible]`, which
would block kernel evaluation; each constant is proved equal to its decimal
literal below. -/
def f0_05 : ℚ := ⟨1, 20, by decide, by decide⟩

/-- The float literal `0.03`, exactly 3/100. -/
def f0_03 : ℚ := ⟨3, 100, by decide, by decide⟩

/-- The float literal `0.02`, exactly 1/50. -/
def f0_02 : ℚ := ⟨1, 50, by decide, by decide⟩

/-- The float literal `0.01`, exactly 1/100. -/
def f0_01 : ℚ := ⟨1, 100, by decide, by decide⟩

/-- The float literal `0.005`, exactly 1/200. -/
def f0_005 : ℚ := ⟨1, 200, by decide, by decide⟩

/-- The float literal `0.003`, exactly 3/1000. -/
def f0_003 : ℚ := ⟨3, 1000, by decide, by decide⟩

/-- The float literal `0.002`, exactly 1/500. -/
def f0_002 : ℚ := ⟨1, 500, by decide, by decide⟩

/-- The float literal `0.001`, exactly 1/1000. -/
def f0_001 : ℚ := ⟨1, 1000, by decide, by decide⟩

/-- The float literal `0.0005`, exactly 1/2000. -/
def f0_0005 : ℚ := ⟨1, 2000, by decide, by decide⟩

/-- The float literal `0.0003`, exactly 3/10000. -/
def f0_0003 : ℚ := ⟨3, 10000, by decide, by decide⟩

/-- The float literal `0.0001`, exactly 1/10000. -/
def f0_0001 : ℚ := ⟨1, 10000, by decide, by decide⟩

/-- The float literal `0.00005`, exactly 1/20000. -/
def f0_00005 : ℚ := ⟨1, 20000, by decide, by decide⟩

/-- The `tolerance_map` dict literal in `get_simplification_tolerance`. -/
def tolerance_map : List (Int × ℚ) :=
  [(5, f0_05), (6, f0_03), (7, f0_02), (8, f0_01), (9, f0_005), (10, f0_003),
   (11, f0_002), (12, f0_001), (13, f0_0005), (14, f0_0003), (15, f0_0001),
   (16, f0_00005)]

/-- Python `tolerance_map.get(zoom_level, 0.01)`. -/
def tolerance_map_get (z : Int) : ℚ :=
  match tolerance_map.find? (fun p => p.1 == z) with
  | some p => p.2
  | none => f0_01

/-- `geo_utils.get_simplification_tolerance`. -/
def get_simplification_tolerance : Option Int → ℚ
  | none => f0_01
  | some z =>
    if z ≤ 5 then f0_05
    else if z ≥ 16 then f0_00005
    else tolerance_map_get z

/-- A row of the `states` table as seen by the query path (ORM attribute
values; optional where the query path guards on `is not None` or where a
fixture may leave the column unset). Identifiers are modelled by their
string form, so Python `str(state.id)` is the identity. -/
structure State where
  id : String
  name : String
  abbreviation : Option String
  fips_code : Option String
  population : Option Int
  area_sq_miles : Option ℚ
  properties : Option (List (String × PValue))
  geometry : Option StoredGeom
deriving DecidableEq, Repr

/-- A row of the `counties` table as seen by the query path. -/
structure County where
  id : String
  name : String
  fips_code : Option String
  state_id : String
  population : Option Int
  area_sq_miles : Option ℚ
  properties : Option (List (String × PValue))
  geometry : Option StoredGeom
deriving DecidableEq, Repr

/-- The storage collaborator: the table contents plus the two PostGIS
primitives the service asks it to run (`ST_SimplifyPreserveTopology` per
entity id, and `ST_Intersects` against an envelope). -/
structure Storage where
  states : List State
  counties : List County
  simplifyState : String → ℚ → Option StoredGeom
  simplifyCounty : String → ℚ → Option StoredGeom
  stIntersects : Option StoredGeom → SpatialPredicate → Bool

/-- One `db.scalar(SELECT ST_SimplifyPreserveTopology(...))` round trip
issued by the service. -/
structure SimplifyRequest where
  entityId : String
  tolerance : ℚ
deriving DecidableEq, Repr

/-- `schemas.GeoJSONFeature`. -/
structure GeoJSONFeature where
  type : String
  id : String
  geometry : Geom
  properties : PropMap
deriving DecidableEq, Repr

/-- The property-dict construction for a state
(`database_service.py` lines 76-92, identical in `routes/geographic.py`
lines 45-61): seed the reserved keys, conditionally add population and
area, then assign every extra key. -/
def state_properties (s : State) : PropMap :=
  let p0 : PropMap :=
    [("name", PValue.str s.name), ("abbreviation", opt_val s.abbreviation),
     ("fips_code", opt_val s.fips_code), ("id", PValue.str s.id)]
  let p1 :=
    match s.population with
    | some n => dictSet p0 "population" (PValue.int n)
    | none => p0
  let p2 :=
    match s.area_sq_miles with
    | some a => dictSet p1 "area_sq_miles" (PValue.num a)
    | none => p1
  match s.properties with
  | some extras => apply_extras p2 extras
  | none => p2

/-- The property-dict construction for a county
(`database_service.py` lines 216-232, identical in the route). -/
def county_properties (c : County) : PropMap :=
  let p0 : PropMap :=
    [("name", PValue.str c.name), ("fips_code", opt_val c.fips_code),
     ("state_id", PValue.str c.state_id), ("id", PValue.str c.id)]
  let p1 :=
    match c.population with
    | some n => dictSet p0 "population" (PValue.int n)
    | none => p0
  let p2 :=
    match c.area_sq_miles with
    | some a => dictSet p1 "area_sq_miles" (PValue.num a)
    | none => p1
  match c.properties with
  | some extras => apply_extras p2 extras
  | none => p2

/-- `if tolerance is None and zoom_level is not None:
tolerance = get_simplification_tolerance(zoom_level)`. -/
def resolve_tolerance (tolerance : Option ℚ) (zoom_level : Option Int) :
    Option ℚ :=
  match tolerance, zoom_level with
  | none, some z => some (get_simplification_tolerance (some z))
  | t, _ => t

/-- The geometry branch of the state loop (`database_service.py` lines
103-116): returns the geometry for the feature and the simplification
round trips issued. -/
def state_geometry_step (db : Storage) (tol : Option ℚ)
    (include_geometry : Bool) (s : State) : Geom × List SimplifyRequest :=
  if include_geometry then
    match tol with
    | some t =>
      if 0 < t then
        (convert_geometry_to_geojson (db.simplifyState s.id t), [⟨s.id, t⟩])
      else
        (convert_geometry_to_geojson s.geometry, [])
    | none => (convert_geometry_to_geojson s.geometry, [])
  else
    (create_placeholder_geometry, [])

/-- The geometry branch of the county loop (`database_service.py` lines
242-255). -/
def county_geometry_step (db : Storage) (tol : Option ℚ)
    (include_geometry : Bool) (c : County) : Geom × List SimplifyRequest :=
  if include_geometry then
    match tol with
    | some t =>
      if 0 < t then
        (convert_geometry_to_geojson (db.simplifyCounty c.id t), [⟨c.id, t⟩])
      else
        (convert_geometry_to_geojson c.geometry, [])
    | none => (convert_geometry_to_geojson c.geometry, [])
  else
    (create_placeholder_geometry, [])

/-- One iteration of the state loop: the `GeoJSONFeature` built for one
row. -/
def state_feature (db : Storage) (tol : Option ℚ) (include_geometry : Bool)
    (s : State) : GeoJSONFeature :=
  ⟨"Feature", s.id, (state_geometry_step db tol include_geometry s).1,
   state_properties s⟩

/-- One iteration of the county loop. -/
def county_feature (db : Storage) (tol : Option ℚ) (include_geometry : Bool)
    (c : County) : GeoJSONFeature :=
  ⟨"Feature", c.id, (county_geometry_step db tol include_geometry c).1,
   county_properties c⟩

/-- The bbox filtering step of `DatabaseService.get_all_states` (lines
52-61): apply `ST_Intersects` against the envelope when one was built. -/
def bbox_states (db : Storage) (min_lon min_lat max_lon max_lat : Option ℚ) :
    List State :=
  match create_bounding_box_filter min_lon min_lat max_lon max_lat with
  | some env => db.states.filter (fun s => db.stIntersects s.geometry env)
  | none => db.states

/-- `DatabaseService.get_all_states`: the returned feature list, paired
with the simplification round trips the loop issues (the effect of the
`db.scalar` calls made explicit). -/
def get_all_states (db : Storage) (include_geometry : Bool)
    (tolerance : Option ℚ) (zoom_level : Option Int)
    (min_lon min_lat max_lon max_lat : Option ℚ) :
    List GeoJSONFeature × List SimplifyRequest :=
  let states := bbox_states db min_lon min_lat max_lon max_lat
  let tol := resolve_tolerance tolerance zoom_level
  (states.map (state_feature db tol include_geometry),
   states.flatMap
     (fun s => (state_geometry_step db tol include_geometry s).2))

/-- `DatabaseService.get_counties`: state filter (applied only when the
argument is truthy), bbox filter, then the feature loop. -/
def get_counties (db : Storage) (include_geometry : Bool)
    (state_id : Option String) (tolerance : Option ℚ)
    (zoom_level : Option Int) (min_lon min_lat max_lon max_lat : Option ℚ) :
    List GeoJSONFeature × List SimplifyRequest :=
  let q1 : List County :=
    match state_id with
    | some sid =>
      if sid == "" then db.counties
      else db.counties.filter (fun c => c.state_id == sid)
    | none => db.counties
  let counties : List County :=
    match create_bounding_box_filter min_lon min_lat max_lon max_lat with
    | some env => q1.filter (fun c => db.stIntersects c.geometry env)
    | none => q1
  let tol := resolve_tolerance tolerance zoom_level
  (counties.map (county_feature db tol include_geometry),
   counties.flatMap
     (fun c => (county_geometry_step db tol include_geometry c).2))

/-- The unguarded geometry conversion in the route handlers
(`routes/geographic.py` lines 82-91): `to_shape(geometry)` raises on a
`None` column or a malformed value; there is no try/except. -/
def route_convert : Option StoredGeom → Except String Geom
  | none => Except.error "to_shape called on None geometry"
  | some g => to_shape_geojson g

/-- `routes/geographic.py get_states`: the handler converts geometry
directly; any raised conversion error propagates and aborts the batch. -/
def route_get_states (db : Storage) (include_geometry : Bool) :
    Except String (List GeoJSONFeature) :=
  db.states.mapM (fun s =>
    match
      (if include_geometry then route_convert s.geometry
       else Except.ok (Geom.point (0, 0))) with
    | Except.ok g => Except.ok (⟨"Feature", s.id, g, state_properties s⟩ :
        GeoJSONFeature)
    | Except.error e => Except.error e)

/-- `routes/geographic.py get_counties`: same truthiness-guarded state
filter as the service, unguarded geometry conversion. -/
def route_get_counties (db : Storage) (include_geometry : Bool)
    (state_id : Option String) : Except String (List GeoJSONFeature) :=
  let q1 : List County :=
    match state_id with
    | some sid =>
      if sid == "" then db.counties
      else db.counties.filter (fun c => c.state_id == sid)
    | none => db.counties
  q1.mapM (fun c =>
    match
      (if include_geometry then route_convert c.geometry
       else Except.ok (Geom.point (0, 0))) with
    | Except.ok g => Except.ok (⟨"Feature", c.id, g, county_properties c⟩ :
        GeoJSONFeature)
    | Except.error e => Except.error e)

/-! Helper lemmas about the dict model. -/

theorem dictGet_dictSet_self (m : PropMap) (k : String) (v : PValue) :
    dictGet (dictSet m k v) k = some v := by
  induction m with
  | nil => simp [dictSet, dictGet]
  | cons hd tl ih =>
    obtain ⟨k0, v0⟩ := hd
    by_cases h : k0 = k
    · simp [dictSet, dictGet, h]
    · simp [dictSet, dictGet, h, ih]

theorem dictGet_dictSet_ne (m : PropMap) (k1 k : String) (v : PValue)
    (h : k1 ≠ k) : dictGet (dictSet m k1 v) k = dictGet m k := by
  induction m with
  | nil => simp [dictSet, dictGet, h]
  | cons hd tl ih =>
    obtain ⟨k0, v0⟩ := hd
    by_cases h0 : k0 = k1
    · subst h0
      simp [dictSet, dictGet, h]
    · by_cases h1 : k0 = k
      · simp [dictSet, dictGet, h0, h1, Ne.symm h]
      · simp [dictSet, dictGet, h0, h1, ih]

theorem dictGet_apply_extras (l : List (String × PValue)) (p : PropMap)
    (k : String) :
    dictGet (apply_extras p l) k =
      match lookupLast l k with
      | some v => some v
      | none => dictGet p k := by
  induction l generalizing p with
  | nil => simp [apply_extras, lookupLast]
  | cons hd tl ih =>
    obtain ⟨k0, v0⟩ := hd
    have step : apply_extras p ((k0, v0) :: tl) =
        apply_extras (dictSet p k0 v0) tl := rfl
    rw [step, ih]
    cases hlast : lookupLast tl k with
    | some v => simp [lookupLast, hlast]
    | none =>
      by_cases h : k0 = k
      · subst h
        simp [lookupLast, hlast, dictGet_dictSet_self]
      · simp [lookupLast, hlast, h, dictGet_dictSet_ne _ _ _ _ h]

theorem flatMap_singleton_eq_map {α β : Type} (l : List α) (f : α → β) :
    (l.flatMap fun x => [f x]) = l.map f := by
  induction l with
  | nil => rfl
  | cons hd tl ih => simp [List.flatMap_cons, ih]

/-! Bridges from the constructor-built tolerance constants to the decimal
literals the properties are stated with. -/

theorem f0_01_eq : f0_01 = 0.01 := by
  rw [f0_01, Rat.mk'_eq_divInt, Rat.divInt_eq_div]
  norm_num

theorem f0_05_eq : f0_05 = 0.05 := by
  rw [f0_05, Rat.mk'_eq_divInt, Rat.divInt_eq_div]
  norm_num

theorem f0_02_eq : f0_02 = 0.02 := by
  rw [f0_02, Rat.mk'_eq_divInt, Rat.divInt_eq_div]
  norm_num

theorem f0_003_eq : f0_003 = 0.003 := by
  rw [f0_003, Rat.mk'_eq_divInt, Rat.divInt_eq_div]
  norm_num

theorem f0_00005_eq : f0_00005 = 0.00005 := by
  rw [f0_00005, Rat.mk'_eq_divInt, Rat.divInt_eq_div]
  norm_num

/-! Concrete fixtures used by counterexamples and witnesses. -/

/-- A small well-formed multipolygon standing in for a real boundary. -/
def gHI : Geom := Geom.multiPolygon [[[(1, 2), (3, 4), (5, 6), (1, 2)]]]

/-- A state row with a well-formed geometry and all code fields present. -/
def stateGoodGeom : State :=
  ⟨"S1", "Hawaii", some "HI", some "15", none, none, none,
   some (StoredGeom.wellFormed gHI)⟩

/-- A state row whose stored geometry makes the shapely conversion raise. -/
def stateBadGeom : State :=
  ⟨"S2", "Atlantis", some "AT", some "00", none, none, none,
   some (StoredGeom.malformed "WKB parse error")⟩

/-- The T4 fixture: a state whose free-form property bag collides with the
reserved key `name`. -/
def stateNameCollision : State :=
  ⟨"S1", "Hawaii", some "HI", some "15", none, none,
   some [("name", PValue.str "should-not-appear")],
   some (StoredGeom.wellFormed gHI)⟩

/-- The E2E scenario A fixture: a state with no FIPS code supplied and no
free-form properties. -/
def stateHawaiiNoFips : State :=
  ⟨"S1", "Hawaii", some "HI", none, none, none, none,
   some (StoredGeom.wellFormed gHI)⟩

def dbNameCollision : Storage :=
  ⟨[stateNameCollision], [], fun _ _ => none, fun _ _ => none,
   fun _ _ => true⟩

def dbHawaiiNoFips : Storage :=
  ⟨[stateHawaiiNoFips], [], fun _ _ => none, fun _ _ => none,
   fun _ _ => true⟩

def dbMixedGeoms : Storage :=
  ⟨[stateGoodGeom, stateBadGeom], [], fun _ _ => none, fun _ _ => none,
   fun _ _ => true⟩

/-- The E2E scenario B fixture: three counties under state `S1` and two
under a different state. -/
def dbCounties : Storage :=
  ⟨[],
   [⟨"C1", "Kauai", some "15007", "S1", none, none, none,
     some (StoredGeom.wellFormed gHI)⟩,
    ⟨"C2", "Maui", some "15009", "S1", none, none, none,
     some (StoredGeom.wellFormed gHI)⟩,
    ⟨"C3", "Honolulu", some "15003", "S1", none, none, none,
     some (StoredGeom.wellFormed gHI)⟩,
    ⟨"C4", "Anchorage", some "02020", "S2", none, none, none,
     some (StoredGeom.wellFormed gHI)⟩,
    ⟨"C5", "Juneau", some "02110", "S2", none, none, none,
     some (StoredGeom.wellFormed gHI)⟩],
   fun _ _ => none, fun _ _ => none, fun _ _ => true⟩

/-- C4: `get_simplification_tolerance` is non-increasing over every integer
zoom in [1, 20], returns 0.01 for None, 0.05 for every zoom ≤ 5, 0.00005
for every zoom ≥ 16, and 0.003 for zoom 10. -/
theorem tolerance_selector_spec :
    (∀ a b : Int, 1 ≤ a → a ≤ b → b ≤ 20 →
      get_simplification_tolerance (some b) ≤
        get_simplification_tolerance (some a)) ∧
    get_simplification_tolerance none = 0.01 ∧
    (∀ z : Int, z ≤ 5 → get_simplification_tolerance (some z) = 0.05) ∧
    (∀ z : Int, 16 ≤ z → get_simplification_tolerance (some z) = 0.00005) ∧
    get_simplification_tolerance (some 10) = 0.003 := by
  refine ⟨?_, ?_, ?_, ?_, ?_⟩
  · intro a b ha hab hb
    have ha2 : a ≤ 20 := le_trans hab hb
    have hb1 : 1 ≤ b := le_trans ha hab
    interval_cases a <;> interval_cases b <;> decide
  · rw [show get_simplification_tolerance none = f0_01 from rfl, f0_01_eq]
  · intro z hz
    rw [show get_simplification_tolerance (some z) =
          (if z ≤ 5 then f0_05
           else if z ≥ 16 then f0_00005 else tolerance_map_get z) from rfl]
    rw [if_pos hz, f0_05_eq]
  · intro z hz
    have h5 : ¬ z ≤ 5 := by omega
    rw [show get_simplification_tolerance (some z) =
          (if z ≤ 5 then f0_05
           else if z ≥ 16 then f0_00005 else tolerance_map_get z) from rfl]
    rw [if_neg h5, if_pos hz, f0_00005_eq]
  · rw [show get_simplification_tolerance (some 10) = f0_003 from rfl,
      f0_003_eq]

/-- Witness for C4 at concrete zooms. -/
theorem tolerance_selector_spec_witness :
    get_simplification_tolerance (some 17) ≤
      get_simplification_tolerance (some 2) ∧
    get_simplification_tolerance (some 3) = 0.05 ∧
    get_simplification_tolerance (some 18) = 0.00005 :=
  ⟨tolerance_selector_spec.1 2 17 (by decide) (by decide) (by decide),
   tolerance_selector_spec.2.2.1 3 (by decide),
   tolerance_selector_spec.2.2.2.1 18 (by decide)⟩

/-- C6: `convert_geometry_to_geojson` is total: None maps to the point
placeholder, and any input whose conversion raises is caught and mapped to
the same placeholder, never propagated. -/
theorem convert_geometry_total_placeholder :
    convert_geometry_to_geojson none = Geom.point (0, 0) ∧
    ∀ g e, to_shape_geojson g = Except.error e →
      convert_geometry_to_geojson (some g) = Geom.point (0, 0) := by
  constructor
  · rfl
  · intro g e h
    simp [convert_geometry_to_geojson, h]

/-- Witness for C6 on a concrete malformed geometry. -/
theorem convert_geometry_total_placeholder_witness :
    convert_geometry_to_geojson (some (StoredGeom.malformed "unsupported")) =
      Geom.point (0, 0) :=
  convert_geometry_total_placeholder.2 (StoredGeom.malformed "unsupported")
    "unsupported" rfl

/-- C7: `create_bounding_box_filter` returns a predicate iff all four
coordinates are non-None; when they are, the predicate is the envelope over
exactly those coordinates in SRID 4326, with no min < max validation. -/
theorem bounding_box_filter_spec :
    (∀ a b c d : Option ℚ,
      (create_bounding_box_filter a b c d).isSome =
        (a.isSome && b.isSome && c.isSome && d.isSome)) ∧
    (∀ a b c d : ℚ,
      create_bounding_box_filter (some a) (some b) (some c) (some d) =
        some ⟨a, b, c, d, 4326⟩) ∧
    create_bounding_box_filter (some 1) (some 2) (some 3) none = none ∧
    create_bounding_box_filter (some 3) (some 4) (some 1) (some 2) =
      some ⟨3, 4, 1, 2, 4326⟩ := by
  refine ⟨?_, ?_, rfl, rfl⟩
  · intro a b c d
    cases a <;> cases b <;> cases c <;> cases d <;> rfl
  · intro a b c d
    rfl

/-- Helper: in a state's assembled property dict, a key bound in the
free-form bag ends up with the bag's (last) value — the extras assignment
loop overwrites whatever was seeded before it. -/
theorem state_properties_extras_last (s : State)
    (extras : List (String × PValue)) (k : String) (v : PValue)
    (hp : s.properties = some extras) (hl : lookupLast extras k = some v) :
    dictGet (state_properties s) k = some v := by
  unfold state_properties
  simp only [hp]
  rw [dictGet_apply_extras]
  simp [hl]

/-- C1 counterexample: at the T4 fixture, whose extras bag binds the
reserved key `name` to `"should-not-appear"`, the assembled property
`name` is `"should-not-appear"`, not the entity's real name — so the
colliding extras value is not dropped. -/
theorem extras_overwrite_reserved_counterexample :
    ((get_all_states dbNameCollision true none none none none
        none none).1.map (fun f => dictGet f.properties "name")) =
      [some (PValue.str "should-not-appear")] := by decide

/-- C1 amended: reserved keys do NOT win. For every entity whose
extra_properties bag binds a key colliding with a reserved property key,
the assembled property under that key equals the (last) colliding value
from the bag; the seeded reserved value is overwritten. -/
theorem extras_overwrite_reserved (s : State)
    (extras : List (String × PValue)) (k : String) (v : PValue)
    (hp : s.properties = some extras) (hl : lookupLast extras k = some v) :
    dictGet (state_properties s) k = some v :=
  state_properties_extras_last s extras k v hp hl

/-- Witness for C1 amended at the T4 fixture. -/
theorem extras_overwrite_reserved_witness :
    dictGet (state_properties stateNameCollision) "name" =
      some (PValue.str "should-not-appear") :=
  extras_overwrite_reserved stateNameCollision
    [("name", PValue.str "should-not-appear")] "name"
    (PValue.str "should-not-appear") rfl (by decide)

/-- C5 counterexample: at the E2E scenario A fixture (no FIPS code
supplied), the assembled properties do contain the key `fips_code` — the
seed dict always includes it — refuting "the key is absent from the
property map". -/
theorem fips_key_always_present_counterexample :
    ((get_all_states dbHawaiiNoFips true none none none none
        none none).1.map (fun f => dictHasKey f.properties "fips_code")) =
      [true] := by decide

/-- C5 amended: for a state with no code supplied and no free-form bag,
the assembled Feature has the key `fips_code` present and bound to null
(not absent), while `name` equals the entity's name and the geometry is
the codec conversion of the stored geometry. -/
theorem fips_null_when_code_missing (db : Storage) (s : State)
    (hdb : db.states = [s]) (hf : s.fips_code = none)
    (hp : s.properties = none) :
    (get_all_states db true none none none none none none).1 =
      [⟨"Feature", s.id, convert_geometry_to_geojson s.geometry,
        state_properties s⟩] ∧
    dictGet (state_properties s) "fips_code" = some PValue.null ∧
    dictGet (state_properties s) "name" = some (PValue.str s.name) := by
  refine ⟨?_, ?_, ?_⟩
  · simp [get_all_states, bbox_states, create_bounding_box_filter, hdb,
      resolve_tolerance, state_feature, state_geometry_step]
  · unfold state_properties
    simp only [hp, hf]
    cases s.population <;> cases s.area_sq_miles <;>
      simp [dictGet, dictSet, opt_val]
  · unfold state_properties
    simp only [hp]
    cases s.population <;> cases s.area_sq_miles <;>
      simp [dictGet, dictSet, opt_val]

/-- Witness for C5 amended at the scenario A fixture. -/
theorem fips_null_when_code_missing_witness :
    dictGet (state_properties stateHawaiiNoFips) "fips_code" =
      some PValue.null ∧
    dictGet (state_properties stateHawaiiNoFips) "name" =
      some (PValue.str "Hawaii") :=
  ⟨(fips_null_when_code_missing dbHawaiiNoFips stateHawaiiNoFips rfl rfl
      rfl).2.1,
   (fips_null_when_code_missing dbHawaiiNoFips stateHawaiiNoFips rfl rfl
      rfl).2.2⟩

/-- C9: the Feature-level `id` equals the entity identifier for every
state and county feature, and stays so even when the extras bag binds the
key `id` — the extras assignment can only reach the `id` entry inside the
properties dict. -/
theorem feature_id_from_entity :
    (∀ (db : Storage) (tol : Option ℚ) (ig : Bool) (s : State),
      (state_feature db tol ig s).id = s.id) ∧
    (∀ (db : Storage) (tol : Option ℚ) (ig : Bool) (c : County),
      (county_feature db tol ig c).id = c.id) ∧
    (∀ (db : Storage) (tol : Option ℚ) (ig : Bool) (s : State) (v : PValue),
      s.properties = some [("id", v)] →
      (state_feature db tol ig s).id = s.id ∧
      dictGet (state_properties s) "id" = some v) := by
  refine ⟨fun _ _ _ _ => rfl, fun _ _ _ _ => rfl, ?_⟩
  intro db tol ig s v hp
  exact ⟨rfl, state_properties_extras_last s [("id", v)] "id" v hp
    (by simp [lookupLast])⟩

/-- Witness for C9 at a concrete state whose extras bag binds `id`. -/
theorem feature_id_from_entity_witness :
    (state_feature dbNameCollision none true
        ⟨"S9", "Nowhere", none, none, none, none,
         some [("id", PValue.str "fake-id")], none⟩).id = "S9" ∧
    dictGet (state_properties
        ⟨"S9", "Nowhere", none, none, none, none,
         some [("id", PValue.str "fake-id")], none⟩) "id" =
      some (PValue.str "fake-id") :=
  feature_id_from_entity.2.2 dbNameCollision none true
    ⟨"S9", "Nowhere", none, none, none, none,
     some [("id", PValue.str "fake-id")], none⟩
    (PValue.str "fake-id") rfl

/-- Helper: a per-element empty contribution collapses the request log. -/
theorem flatMap_const_nil {α β : Type} (l : List α) :
    (l.flatMap fun _ => ([] : List β)) = [] := by
  induction l with
  | nil => rfl
  | cons hd tl ih => simp [List.flatMap_cons, ih]

/-- C3: explicit tolerance wins and makes zoom irrelevant; absent tolerance
with zoom 7 derives 0.02 per-entity simplification requests; neither
supplied, or explicit tolerance 0, issues no simplification request and
uses raw geometry. -/
theorem tolerance_resolution_policy (db : Storage) (ig : Bool) (t : ℚ)
    (z zx : Option Int) (a b c d : Option ℚ) :
    get_all_states db ig (some t) z a b c d =
      get_all_states db ig (some t) zx a b c d ∧
    (0 < t →
      (get_all_states db true (some t) z a b c d).2 =
        (bbox_states db a b c d).map (fun s => ⟨s.id, t⟩)) ∧
    (get_all_states db true none (some 7) a b c d).2 =
      (bbox_states db a b c d).map (fun s => ⟨s.id, 0.02⟩) ∧
    (get_all_states db ig none none a b c d).2 = [] ∧
    (get_all_states db true none none a b c d).1 =
      (bbox_states db a b c d).map (fun s =>
        ⟨"Feature", s.id, convert_geometry_to_geojson s.geometry,
         state_properties s⟩) ∧
    (get_all_states db ig (some 0) z a b c d).2 = [] ∧
    (get_all_states db true (some 0) z a b c d).1 =
      (bbox_states db a b c d).map (fun s =>
        ⟨"Feature", s.id, convert_geometry_to_geojson s.geometry,
         state_properties s⟩) := by
  have hz : resolve_tolerance (some t) z = some t := by cases z <;> rfl
  have hzx : resolve_tolerance (some t) zx = some t := by cases zx <;> rfl
  have hz0 : resolve_tolerance (some 0) z = some 0 := by cases z <;> rfl
  refine ⟨?_, ?_, ?_, ?_, ?_, ?_, ?_⟩
  · simp [get_all_states, hz, hzx]
  · intro ht
    simp [get_all_states, hz, state_geometry_step, ht,
      flatMap_singleton_eq_map]
  · have h7 : resolve_tolerance none (some 7) = some f0_02 := rfl
    have hpos : (0 : ℚ) < f0_02 := by decide
    simp only [← f0_02_eq]
    simp [get_all_states, h7, state_geometry_step, hpos,
      flatMap_singleton_eq_map]
  · cases ig <;>
      simp [get_all_states, resolve_tolerance, state_geometry_step,
        flatMap_const_nil]
  · simp [get_all_states, resolve_tolerance, state_feature,
      state_geometry_step]
  · have h0 : ¬ (0 : ℚ) < 0 := by decide
    cases ig <;>
      simp [get_all_states, hz0, state_geometry_step, h0, flatMap_const_nil]
  · have h0 : ¬ (0 : ℚ) < 0 := by decide
    simp [get_all_states, hz0, state_feature, state_geometry_step, h0]

/-- Witness for C3: with explicit tolerance 1 and zoom 3, one
simplification request per state is issued with tolerance exactly 1. -/
theorem tolerance_resolution_policy_witness :
    (get_all_states dbMixedGeoms true (some 1) (some 3) none none
        none none).2 = [⟨"S1", 1⟩, ⟨"S2", 1⟩] := by
  have h := (tolerance_resolution_policy dbMixedGeoms true 1 (some 3) none
    none none none none).2.1 (by decide)
  rw [h]
  decide

/-- C2 counterexample: the route handler converts geometry without a
guard, so one malformed row aborts the whole batch with an error instead
of degrading that row — the good row is not returned either. -/
theorem route_aborts_on_conversion_failure :
    route_get_states dbMixedGeoms true =
      Except.error "WKB parse error" := by rfl

/-- C2 amended: in the service query path only, the batch always yields
exactly one Feature per retrieved entity (the feature list is a map over
the filtered rows), and a row whose conversion fails — raw or simplified —
still yields its Feature, with geometry degraded to the placeholder and
all other fields intact. -/
theorem service_conversion_failure_local (db : Storage) (ig : Bool)
    (t : Option ℚ) (z : Option Int) (a b c d : Option ℚ) :
    (get_all_states db ig t z a b c d).1 =
      (bbox_states db a b c d).map
        (state_feature db (resolve_tolerance t z) ig) ∧
    (∀ (s : State) (rsn : String),
      s.geometry = some (StoredGeom.malformed rsn) →
      state_feature db none true s =
        ⟨"Feature", s.id, Geom.point (0, 0), state_properties s⟩) ∧
    (∀ (s : State) (t1 : ℚ) (rsn : String), 0 < t1 →
      db.simplifyState s.id t1 = some (StoredGeom.malformed rsn) →
      state_feature db (some t1) true s =
        ⟨"Feature", s.id, Geom.point (0, 0), state_properties s⟩) := by
  refine ⟨rfl, ?_, ?_⟩
  · intro s rsn h
    simp [state_feature, state_geometry_step, h,
      convert_geometry_to_geojson, to_shape_geojson]
  · intro s t1 rsn ht h
    simp [state_feature, state_geometry_step, ht, h,
      convert_geometry_to_geojson, to_shape_geojson]

/-- Witness for C2 amended: the malformed row of the mixed fixture is
still emitted by the service path, geometry degraded to the placeholder. -/
theorem service_conversion_failure_local_witness :
    state_feature dbMixedGeoms none true stateBadGeom =
      ⟨"Feature", "S2", Geom.point (0, 0),
       state_properties stateBadGeom⟩ :=
  (service_conversion_failure_local dbMixedGeoms true none none none none
      none none).2.1 stateBadGeom "WKB parse error" rfl

/-- C8: a county query with a (truthy) state filter returns exactly one
Feature per stored county whose parent equals the filter, and an empty
match set yields the empty list rather than an error. -/
theorem county_filter_exact (db : Storage) (ig : Bool) (sid : String)
    (h : sid ≠ "") :
    (get_counties db ig (some sid) none none none none none none).1 =
      (db.counties.filter (fun c => c.state_id == sid)).map
        (county_feature db none ig) ∧
    (db.counties.filter (fun c => c.state_id == sid) = [] →
      (get_counties db ig (some sid) none none none none none none).1 =
        []) := by
  have hbe : (sid == "") = false := beq_eq_false_iff_ne.mpr h
  constructor
  · simp [get_counties, hbe, create_bounding_box_filter, resolve_tolerance]
  · intro he
    simp [get_counties, hbe, create_bounding_box_filter,
      resolve_tolerance, he]

/-- Witness for C8 at the 3-plus-2 county fixture: exactly 3 Features. -/
theorem county_filter_exact_witness :
    (get_counties dbCounties true (some "S1") none none none none
        none none).1.length = 3 := by
  have h := (county_filter_exact dbCounties true "S1" (by decide)).1
  rw [h]
  decide

/-- C10: an empty-string state filter is falsy in `if state_id:` and is
treated exactly like no filter, in the service and in the route handler;
every stored county is returned. -/
theorem empty_state_filter_means_no_filter (db : Storage) (ig : Bool)
    (t : Option ℚ) (z : Option Int) (a b c d : Option ℚ) :
    get_counties db ig (some "") t z a b c d =
      get_counties db ig none t z a b c d ∧
    (get_counties db ig (some "") none none none none none none).1.length =
      db.counties.length ∧
    route_get_counties db ig (some "") = route_get_counties db ig none := by
  refine ⟨rfl, ?_, rfl⟩
  simp [get_counties, create_bounding_box_filter]
